import Mathlib

/- Verification of the PyWinCtl Windows backend (src/pywinctl/_pywinctl_win.py):
   a shallow functional embedding of the menu-tree subsystem, the title/app
   matching engine and the always-on-bottom watcher, together with theorems
   checking the natural-language specification against that embedding.

   Modelling conventions:
   - the win32 OS boundary is a record of query functions (MenuOS);
   - Python dicts are association lists with insert-or-replace semantics
     (dictSet) and first-match lookup (dictGet);
   - Python truthiness of int-or-None / str-or-None values is made explicit
     (optIntTruthy / optStrTruthy);
   - the recursive menu walk carries a fuel parameter, since the Python
     recursion is unbounded on cyclic handle graphs reported by the OS. -/

namespace PyWinCtl

/-- Rect named tuple (left, top, right, bottom) used throughout pywinctl. -/
structure Rect where
  left : Int
  top : Int
  right : Int
  bottom : Int
  deriving DecidableEq, Repr

/-- Fields of the win32gui_struct MENUITEMINFO unpack that _pywinctl_win.py
reads: text is None when the OS reported no string, hSubMenu is None when the
MIIM_SUBMENU field is absent, wID is None when MIIM_ID is absent. -/
structure MENUITEMINFO where
  text : Option String
  hSubMenu : Option Int
  wID : Option Int
  deriving DecidableEq, Repr

/-- The win32 boundary used by the Win32Window._Menu class:
GetMenuItemCount(hMenu), GetMenuItemInfo by position (already unpacked), and
GetMenuItemRect(hWnd, hMenu, itemPos) returning the result flag together with
the four absolute screen coordinates. -/
structure MenuOS where
  getMenuItemCount : Int → Int
  getMenuItemInfo : Int → Int → MENUITEMINFO
  getMenuItemRect : Int → Int → Int → Int × (Int × Int × Int × Int)

/-- Python truthiness of an int-or-None value: None and 0 are falsy. -/
def optIntTruthy : Option Int → Bool
  | none => false
  | some n => !(n == 0)

/-- Python truthiness of a str-or-None value: None and the empty string are
falsy. -/
def optStrTruthy : Option String → Bool
  | none => false
  | some s => !(s == "")

/-- Python dict lookup (first matching key). -/
def dictGet {α : Type} : List (String × α) → String → Option α
  | [], _ => none
  | (k, v) :: rest, key => if k = key then some v else dictGet rest key

/-- Python dict assignment: replace the value at an existing key in place
(keeping its position), or append a fresh binding at the end. -/
def dictSet {α : Type} : List (String × α) → String → α → List (String × α)
  | [], key, v => [(key, v)]
  | (k, w) :: rest, key, v =>
      if k = key then (key, v) :: rest else (k, w) :: dictSet rest key v

/-- The _SubMenuStructure TypedDict: one node of the cached menu tree.
The entries dict is an association list of title to child node. -/
inductive SubMenuStructure : Type where
  | mk (parent : Int) (hSubMenu : Int) (wID : Option Int) (shortcut : String)
      (rect : Option Rect) (entries : List (String × SubMenuStructure))

/-- Field parent of a _SubMenuStructure node. -/
def SubMenuStructure.parent : SubMenuStructure → Int
  | .mk p _ _ _ _ _ => p

/-- Field hSubMenu of a _SubMenuStructure node (the int stored by getMenu). -/
def SubMenuStructure.hSubMenu : SubMenuStructure → Int
  | .mk _ h _ _ _ _ => h

/-- Field wID of a _SubMenuStructure node. -/
def SubMenuStructure.wID : SubMenuStructure → Option Int
  | .mk _ _ w _ _ _ => w

/-- Field shortcut of a _SubMenuStructure node. -/
def SubMenuStructure.shortcut : SubMenuStructure → String
  | .mk _ _ _ s _ _ => s

/-- Field rect of a _SubMenuStructure node. -/
def SubMenuStructure.rect : SubMenuStructure → Option Rect
  | .mk _ _ _ _ r _ => r

/-- Field entries of a _SubMenuStructure node. -/
def SubMenuStructure.entries : SubMenuStructure → List (String × SubMenuStructure)
  | .mk _ _ _ _ _ e => e

/-- Removal of every occurrence of a character from a character list; models
the Python builtin str.replace(ch, "") used by getMenu.findit. -/
def removeCharList (c : Char) : List Char → List Char
  | [] => []
  | d :: rest =>
      if d = c then removeCharList c rest else d :: removeCharList c rest

/-- Python text.replace(ch, "") over strings. -/
def pyRemoveChar (ch : Char) (s : String) : String :=
  String.mk (removeCharList ch s.data)

/-- Splitting a character list at every occurrence of a separator character;
models the Python builtin str.split(sep): splitting the empty string yields
one empty field, and separators at either end produce empty fields. -/
def splitCharList (sep : Char) : List Char → List Char → List String
  | [], acc => [String.mk acc.reverse]
  | d :: rest, acc =>
      if d = sep then String.mk acc.reverse :: splitCharList sep rest []
      else splitCharList sep rest (d :: acc)

/-- Python text.split(sep) for a one-character separator. -/
def pySplit (sep : Char) (s : String) : List String :=
  splitCharList sep s.data []

/-- Title computation in getMenu.findit:
text is split on a tab, ampersands are removed from the label, and an empty
stripped label is rendered as the literal key "separator". -/
def stripTitle (t : String) : String :=
  let parts := pySplit '\t' t
  if pyRemoveChar '&' (parts.headD "") = "" then "separator"
  else pyRemoveChar '&' (parts.headD "")

/-- Shortcut computation in getMenu.findit: the part after the tab, if any. -/
def menuShortcut (t : String) : String :=
  let parts := pySplit '\t' t
  if parts.length < 2 then "" else parts.getD 1 ""

/-- Win32Window._Menu.getMenuItemCount: a zero hSubMenu defaults to the
window's root menu handle before GetMenuItemCount is called. -/
def menuGetMenuItemCount (os : MenuOS) (hMenu hSubMenu : Int) : Int :=
  os.getMenuItemCount (if hSubMenu = 0 then hMenu else hSubMenu)

/-- Win32Window._Menu._getMenuItemInfo: returns the unpacked MENUITEMINFO for
the item at a position, or None when the window has no root menu handle. -/
def menuGetMenuItemInfoPriv (os : MenuOS) (hMenu hSubMenu itemPos : Int) :
    Option MENUITEMINFO :=
  if hMenu ≠ 0 then some (os.getMenuItemInfo hSubMenu itemPos) else none

/-- One coordinate of the relative computation in _getMenuItemRect:
Python writes abs(abs(c) - abs(w)), not a plain subtraction. -/
def pyRelCoord (c w : Int) : Int := |(|c| - |w|)|

/-- Win32Window._Menu._getMenuItemRect: queries the OS rectangle of the item
at a position, optionally re-expresses it with the abs-of-difference formula
against the owning window's left/top, then overrides the left coordinate with
the parent rectangle's left when one is supplied; None when the guards fail or
the OS query reports failure. -/
def menuGetMenuItemRectPriv (os : MenuOS) (hWnd hMenu winLeft winTop : Int)
    (hSubMenu itemPos : Int) (parentRect : Option Rect) (relative : Bool) :
    Option Rect :=
  if hMenu ≠ 0 ∧ hSubMenu ≠ 0 ∧ 0 ≤ itemPos ∧
      itemPos < menuGetMenuItemCount os hMenu hSubMenu then
    match os.getMenuItemRect hWnd hSubMenu itemPos with
    | (result, (x, y, r, b)) =>
      if result ≠ 0 then
        match
          (if relative then
            (pyRelCoord x winLeft, pyRelCoord y winTop,
             pyRelCoord r winLeft, pyRelCoord b winTop)
          else (x, y, r, b)) with
        | (x2, y2, r2, b2) =>
          match parentRect with
          | some pr => some ⟨pr.left, y2, r2, b2⟩
          | none => some ⟨x2, y2, r2, b2⟩
      else none
  else none

/-- Body of the for loop in getMenu.findit, processing item index i of the
menu handle parent: the item is skipped when its info is missing, its text is
None or empty, or its hSubMenu field is None; otherwise a node is built and
assigned into the entries dict under the computed title. The child entries of
the node are produced by the supplied child builder (the recursive findit
call, which in the source runs immediately after the insertion and populates
the freshly inserted node's entries in place). -/
def finditBody (os : MenuOS) (hWnd hMenu winLeft winTop : Int)
    (child : Int → Option Rect → List (String × SubMenuStructure))
    (parent : Int) (parentRect : Option Rect)
    (option : List (String × SubMenuStructure)) (i : Nat) :
    List (String × SubMenuStructure) :=
  match menuGetMenuItemInfoPriv os hMenu parent (Int.ofNat i) with
  | none => option
  | some info =>
    if info.text = none ∨ info.text = some "" ∨ info.hSubMenu = none then
      option
    else
      let t := info.text.getD ""
      let title := stripTitle t
      let shortcut := menuShortcut t
      let rect := menuGetMenuItemRectPriv os hWnd hMenu winLeft winTop parent
        (Int.ofNat i) parentRect true
      dictSet option title
        (SubMenuStructure.mk parent (info.hSubMenu.getD 0) info.wID shortcut
          rect (child (info.hSubMenu.getD 0) rect))

/-- One level of getMenu.findit: iterate the item indices of the menu handle
parent (GetMenuItemCount, empty when negative) over the loop body, starting
from an empty entries dict. -/
def finditLevel (os : MenuOS) (hWnd hMenu winLeft winTop : Int)
    (child : Int → Option Rect → List (String × SubMenuStructure))
    (parent : Int) (parentRect : Option Rect) :
    List (String × SubMenuStructure) :=
  (List.range (os.getMenuItemCount parent).toNat).foldl
    (finditBody os hWnd hMenu winLeft winTop child parent parentRect) []

/-- The recursive findit walk with fuel: each level builds its entries dict,
recursing into every inserted item's submenu handle with the item's computed
rectangle as the parent rectangle. -/
def buildEntries (os : MenuOS) (hWnd hMenu winLeft winTop : Int) :
    Nat → Int → Option Rect → List (String × SubMenuStructure)
  | 0 => fun _ _ => []
  | fuel + 1 =>
      finditLevel os hWnd hMenu winLeft winTop
        (buildEntries os hWnd hMenu winLeft winTop fuel)

/-- Win32Window._Menu.getMenu: build the whole tree from the root menu handle
(empty when the window has no menu). -/
def getMenu (os : MenuOS) (hWnd hMenu winLeft winTop : Int) (fuel : Nat) :
    List (String × SubMenuStructure) :=
  if hMenu ≠ 0 then buildEntries os hWnd hMenu winLeft winTop fuel hMenu none
  else []

/-- Decision extracted from the findit loop guard: item index i of parent is
inserted iff its info is retrieved (root menu handle nonzero) and has truthy
text and a non-None hSubMenu field. -/
def finditInserts (os : MenuOS) (hMenu parent : Int) (i : Nat) : Bool :=
  match menuGetMenuItemInfoPriv os hMenu parent (Int.ofNat i) with
  | none => false
  | some info =>
      if info.text = none ∨ info.text = some "" ∨ info.hSubMenu = none then
        false
      else true

/-- The dict key under which findit inserts item index i of parent. -/
def finditTitle (os : MenuOS) (parent : Int) (i : Nat) : String :=
  stripTitle ((os.getMenuItemInfo parent (Int.ofNat i)).text.getD "")

/-- The node that findit inserts for item index i of parent, given the child
builder used for its entries. -/
def finditNode (os : MenuOS) (hWnd hMenu winLeft winTop : Int)
    (child : Int → Option Rect → List (String × SubMenuStructure))
    (parent : Int) (parentRect : Option Rect) (i : Nat) : SubMenuStructure :=
  let info := os.getMenuItemInfo parent (Int.ofNat i)
  let t := info.text.getD ""
  let rect := menuGetMenuItemRectPriv os hWnd hMenu winLeft winTop parent
    (Int.ofNat i) parentRect true
  SubMenuStructure.mk parent (info.hSubMenu.getD 0) info.wID (menuShortcut t)
    rect (child (info.hSubMenu.getD 0) rect)

/-- Skip rule as the specification words it: an item is skipped only when it
has neither usable text nor a resolvable identity, where a valid submenu
handle or a truthy command ID counts as a resolvable identity; in particular
a textless item with a valid submenu handle is NOT skipped. -/
def specInsertDecision : Option MENUITEMINFO → Bool
  | none => false
  | some info =>
      optStrTruthy info.text ||
      (match info.hSubMenu with
       | some h => !(h == 0)
       | none => false) ||
      optIntTruthy info.wID

/-- Walk of itemPath[:-1] in clickMenuItem: follow each segment through the
entries dicts; a missing segment sets the cursor to the empty dict and breaks
out of the loop. -/
def walkPrefix : List (String × SubMenuStructure) → List String →
    List (String × SubMenuStructure)
  | option, [] => option
  | option, item :: rest =>
      match dictGet option item with
      | some node => walkPrefix node.entries rest
      | none => []

/-- Lazy build used by clickMenuItem: when the cached structure is empty,
getMenu is invoked to (re)build it. -/
def effectiveMenu (os : MenuOS) (hWnd hMenu winLeft winTop : Int) (fuel : Nat)
    (menuStructure : List (String × SubMenuStructure)) :
    List (String × SubMenuStructure) :=
  if menuStructure.isEmpty then getMenu os hWnd hMenu winLeft winTop fuel
  else menuStructure

/-- Win32Window._Menu.clickMenuItem: an explicit truthy wID is dispatched
directly; otherwise a truthy itemPath is walked through the cached tree and
the last segment's stored wID is used. A truthy resolved id is posted as a
WM_COMMAND message; the result is the found flag together with the posted
message (window handle, command id), None when nothing is posted. -/
def clickMenuItem (os : MenuOS) (hWnd hMenu winLeft winTop : Int) (fuel : Nat)
    (menuStructure : List (String × SubMenuStructure))
    (itemPath : Option (List String)) (wID : Option Int) :
    Bool × Option (Int × Int) :=
  if hMenu ≠ 0 then
    let itemID : Option Int :=
      if optIntTruthy wID then wID
      else
        match itemPath with
        | some p =>
            if p.isEmpty then some 0
            else
              let menu := effectiveMenu os hWnd hMenu winLeft winTop fuel
                menuStructure
              let option := walkPrefix menu p.dropLast
              if option.isEmpty then some 0
              else
                match dictGet option (p.getLastD "") with
                | some node => node.wID
                | none => some 0
        | none => some 0
    if optIntTruthy itemID then (true, some (hWnd, itemID.getD 0))
    else (false, none)
  else (false, none)

/-- Specification-side path resolution: every segment of the path is present
when walking the tree through the entries dicts. -/
def pathAllPresent : List (String × SubMenuStructure) → List String → Bool
  | _, [] => true
  | menu, item :: rest =>
      match dictGet menu item with
      | some node => pathAllPresent node.entries rest
      | none => false

/-- Inner findMenu of getMenuItemRect.findit: scan the tree for a node whose
hSubMenu equals the requested handle; a direct hit at the current level
returns that node's entries immediately (the break), otherwise the search
recurses into each node's entries before moving to the next sibling, later
updates overwriting earlier ones. -/
def findMenuLoop : List (String × SubMenuStructure) → Int →
    List (String × SubMenuStructure) → List (String × SubMenuStructure)
  | [], _, found => found
  | (_, SubMenuStructure.mk _ h _ _ _ entries) :: rest, hSubMenu, found =>
      if h = hSubMenu then entries
      else findMenuLoop rest hSubMenu (findMenuLoop entries hSubMenu found)

/-- Position scan of getMenuItemRect.findit: itemPos starts at -1 and is
incremented before each comparison; the first child whose wID equals the
requested id yields its position, and the fall-through returns the final
value of itemPos (the last index) rather than -1. -/
def findPosLoop : List (String × SubMenuStructure) → Int → Int → Int
  | [], _, itemPos => itemPos
  | (_, node) :: rest, wID, itemPos =>
      if node.wID = some wID then itemPos + 1
      else findPosLoop rest wID (itemPos + 1)

/-- The findit helper of getMenuItemRect: locate the cached submenu by handle
and scan its children for the id. -/
def rectFindit (menu : List (String × SubMenuStructure)) (hSubMenu wID : Int) :
    Int :=
  findPosLoop (findMenuLoop menu hSubMenu []) wID (-1)

/-- Win32Window._Menu.getMenuItemRect: after a lazy build, the positional
index from the cache is used to re-query the OS for the live rectangle; the
zero rectangle is returned when the root handle is missing, the index is out
of the submenu's current item count, or the OS query fails. -/
def menuGetMenuItemRect (os : MenuOS) (hWnd hMenu winLeft winTop : Int)
    (fuel : Nat) (menuStructure : List (String × SubMenuStructure))
    (hSubMenu wID : Int) : Rect :=
  let menu :=
    if menuStructure.isEmpty ∧ hMenu ≠ 0 then
      getMenu os hWnd hMenu winLeft winTop fuel
    else menuStructure
  let itemPos := rectFindit menu hSubMenu wID
  if hMenu ≠ 0 ∧ 0 ≤ itemPos ∧
      itemPos < menuGetMenuItemCount os hMenu hSubMenu then
    match os.getMenuItemRect hWnd hSubMenu itemPos with
    | (result, (x, y, r, b)) =>
      if result ≠ 0 then ⟨x, y, r, b⟩ else ⟨0, 0, 0, 0⟩
  else ⟨0, 0, 0, 0⟩

/-- Relative rectangle as the specification words it: the window's absolute
top-left is subtracted from each coordinate of the item's absolute rectangle,
and a supplied parent rectangle then overrides the left coordinate. -/
def specRelativeRect (x y r b winLeft winTop : Int) (parentRect : Option Rect) :
    Rect :=
  match parentRect with
  | some pr => ⟨pr.left, y - winTop, r - winLeft, b - winTop⟩
  | none => ⟨x - winLeft, y - winTop, r - winLeft, b - winTop⟩

/-- MenuNode invariant as the specification words it: a node has a non-empty
(truthy) command ID or non-empty children, never neither, except that a bare
separator (keyed by the literal "separator") is a valid leaf with both
absent. -/
def specNodeInvariant (key : String) (node : SubMenuStructure) : Prop :=
  optIntTruthy node.wID = true ∨ node.entries ≠ [] ∨ key = "separator"

/-- Observable actions of Win32Window.alwaysOnBottom and its collaborators
_SendBottom and sendBehind(sb=False). -/
inductive WinAction : Type where
  | setWindowPosBottom
  | threadStart
  | eventSet
  | runLoop
  | eventClear
  | setParent
  | defWindowProc
  | redrawWindow
  deriving DecidableEq, Repr

/-- Actions of Win32Window.sendBehind(sb=False): reparent the window back to
its recorded parent, send it the 0x0128 message through DefWindowProc, and
redraw it; the success flag is whether SetParent returned nonzero. -/
def sendBehindFalse (setParentRet : Int) : List WinAction × Bool :=
  ([WinAction.setParent, WinAction.defWindowProc, WinAction.redrawWindow],
    setParentRet ≠ 0)

/-- Win32Window.alwaysOnBottom over the watcher slot state: the state is None
when no _SendBottom object exists, and some flag when one exists with the
given live-flag value. Enabling always issues a direct bottom SetWindowPos,
then either creates and starts the daemon thread (first time) or calls
restart(), which sets the live flag and re-enters run() synchronously.
Disabling kills an existing watcher and then always calls sendBehind(False).
The result is the action trace, the new state and the returned bool. -/
def alwaysOnBottom (aob : Bool) (tState : Option Bool) (setParentRet : Int) :
    List WinAction × Option Bool × Bool :=
  if aob then
    match tState with
    | none =>
        ([WinAction.setWindowPosBottom, WinAction.threadStart], some true, true)
    | some _ =>
        ([WinAction.setWindowPosBottom, WinAction.eventSet, WinAction.runLoop],
          some true, true)
  else
    match tState with
    | none =>
        ((sendBehindFalse setParentRet).1, none, (sendBehindFalse setParentRet).2)
    | some _ =>
        (WinAction.eventClear :: (sendBehindFalse setParentRet).1, some false,
          (sendBehindFalse setParentRet).2)

/-- The single command the _SendBottom loop can issue: SetWindowPos to
HWND_BOTTOM with SWP_NOSIZE, SWP_NOMOVE and SWP_NOACTIVATE. -/
inductive BottomCmd : Type where
  | setWindowPosBottom
  deriving DecidableEq, Repr

/-- _SendBottom._isLast: the target is last when it equals the handle of the
final entry of _findMainWindowHandles(); an empty enumeration compares the
int handle against None, which is false. -/
def isLastHandle (hWnd : Int) (handles : List (Int × Int)) : Bool :=
  match handles.getLast? with
  | none => false
  | some (h, _) => hWnd == h

/-- Elapsed time of threading.Event.wait(timeout): the call returns
immediately when the event's flag is set on entry, and otherwise blocks for
the full timeout (no concurrent set() occurs in this program: kill() only
clears the flag, and restart() sets it before re-entering the loop). -/
def eventWaitElapsed (flagSet : Bool) (timeout : ℚ) : ℚ :=
  if flagSet then 0 else timeout

/-- Environment schedule of one _SendBottom execution: per iteration index,
the live-flag value at the while-condition check, whether the target window
still exists, the enumeration returned by _findMainWindowHandles(), and the
live-flag value when the wait is entered. -/
structure SendBottomEnv where
  keepAtCheck : Nat → Bool
  isWindow : Nat → Bool
  handles : Nat → List (Int × Int)
  keepAtWait : Nat → Bool

/-- Default poll interval of _SendBottom, in seconds. -/
def sendBottomDefaultInterval : ℚ := 0.5

/-- _SendBottom.run as an iteration trace: while the live flag is set and the
window exists, each iteration records the commands it issues (one bottom
SetWindowPos when the target is not last, none otherwise) and the elapsed
time of the Event.wait on the live flag; the loop exits at the first failing
check, recording nothing further. The fuel bounds the observed prefix. -/
def sendBottomRun (hWnd : Int) (interval : ℚ) (env : SendBottomEnv) :
    Nat → Nat → List (List BottomCmd × ℚ)
  | 0, _ => []
  | fuel + 1, n =>
      if env.keepAtCheck n ∧ env.isWindow n then
        ((if isLastHandle hWnd (env.handles n) then []
          else [BottomCmd.setWindowPosBottom]),
          eventWaitElapsed (env.keepAtWait n) interval) ::
          sendBottomRun hWnd interval env fuel (n + 1)
      else []

/-- A window record as consumed by getWindowsWithTitle: its title and its
resolved application name. -/
structure WinRecord where
  title : String
  appName : String
  deriving DecidableEq, Repr

/-- The pywinctl.Re environment consumed by the matching engine (defined in
the package init, outside this file): the condition constants the code
compares against, the set of keys of Re._cond_dic, the matcher functions
themselves, and re.compile abstracted as a pattern transformation. The
theorems below hold for every such environment. -/
structure ReEnv where
  MATCH : Int
  NOTMATCH : Int
  EDITDISTANCE : Int
  DIFFRATIO : Int
  IGNORECASE : Int
  condKeys : List Int
  condDic : Int → String → String → Int → Bool
  compile : String → Int → String

/-- Preprocessing shared by getWindowsWithTitle and getAppsWithName: regex
conditions compile the pattern with the flags, similarity conditions clamp
an out-of-range flags value to 90, and the IGNORECASE flag on the literal
conditions lowercases the pattern and requests lowercasing of candidates.
Returns (pattern, flags, lower). -/
def matchPreprocess (env : ReEnv) (pattern : String) (condition flags : Int) :
    String × Int × Bool :=
  if condition = env.MATCH ∨ condition = env.NOTMATCH then
    (env.compile pattern flags, flags, false)
  else if condition = env.EDITDISTANCE ∨ condition = env.DIFFRATIO then
    (pattern, if 0 < flags ∧ flags ≤ 100 then flags else 90, false)
  else if flags = env.IGNORECASE then
    (pattern.toLower, flags, true)
  else (pattern, flags, false)

/-- getWindowsWithTitle: an empty (falsy) title or an unknown condition gives
no query; otherwise every enumerated window with a truthy title matching the
condition — and, when the app filter is non-empty, whose app name is in the
filter — is kept, in enumeration order. -/
def getWindowsWithTitle (env : ReEnv) (windows : List WinRecord)
    (title : String) (app : List String) (condition flags : Int) :
    List WinRecord :=
  if title ≠ "" ∧ condition ∈ env.condKeys then
    match matchPreprocess env title condition flags with
    | (pattern, flags2, lower) =>
      windows.filter (fun w =>
        !(w.title == "") &&
        env.condDic condition pattern
          (if lower then w.title.toLower else w.title) flags2 &&
        (app.isEmpty || app.contains w.appName))
  else []

/-- getAppsWithName: the same matching logic applied to the list of visible
app names. -/
def getAppsWithName (env : ReEnv) (appNames : List String) (name : String)
    (condition flags : Int) : List String :=
  if name ≠ "" ∧ condition ∈ env.condKeys then
    match matchPreprocess env name condition flags with
    | (pattern, flags2, lower) =>
      appNames.filter (fun t =>
        !(t == "") &&
        env.condDic condition pattern (if lower then t.toLower else t) flags2)
  else []

/-- An OS reporting one textless item that carries a valid submenu handle:
menu handle 10 has a single item with empty text, hSubMenu 5 and no id. -/
def textlessSubmenuOS : MenuOS where
  getMenuItemCount := fun h => if h = 10 then 1 else 0
  getMenuItemInfo := fun _ _ => ⟨some "", some 5, none⟩
  getMenuItemRect := fun _ _ _ => (0, (0, 0, 0, 0))

/-- An OS reporting one item with usable text but neither a populated submenu
nor a command id: menu handle 10 has a single item titled Foo with hSubMenu 0
and wID None; rectangle queries fail. -/
def plainLeafOS : MenuOS where
  getMenuItemCount := fun h => if h = 10 then 1 else 0
  getMenuItemInfo := fun _ _ => ⟨some "Foo", some 0, none⟩
  getMenuItemRect := fun _ _ _ => (0, (0, 0, 0, 0))

/-- An OS with two sibling items under hParent carrying the given labels and
ids, no real submenus, and failing rectangle queries; used to exhibit key
collapsing after ampersand removal. -/
def twoItemOS (l1 l2 : String) (w1 w2 : Option Int) (hParent : Int) : MenuOS where
  getMenuItemCount := fun h => if h = hParent then 2 else 0
  getMenuItemInfo := fun h i =>
    if h = hParent ∧ i = 0 then ⟨some l1, some 0, w1⟩ else ⟨some l2, some 0, w2⟩
  getMenuItemRect := fun _ _ _ => (0, (0, 0, 0, 0))

/-- An OS whose submenu handle 10 currently has two items and reports a live
nonzero rectangle for position 1; all other rectangle queries fail. -/
def lastItemRectOS : MenuOS where
  getMenuItemCount := fun h => if h = 10 then 2 else 0
  getMenuItemInfo := fun _ _ => ⟨none, none, none⟩
  getMenuItemRect := fun _ h i =>
    if h = 10 ∧ i = 1 then (1, (7, 8, 9, 10)) else (0, (0, 0, 0, 0))

/-- A cached menu tree with one submenu (handle 10) holding two children with
ids 1 and 2; neither child has id 99. -/
def cachedTreeC3 : List (String × SubMenuStructure) :=
  [("a", SubMenuStructure.mk 1 10 (some 5) "" none
    [("x", SubMenuStructure.mk 10 0 (some 1) "" none []),
     ("y", SubMenuStructure.mk 10 0 (some 2) "" none [])])]

/-- An OS reporting item rectangles at absolute coordinates (5, 3, 20, 8)
with success, and a generous item count. -/
def negRectOS : MenuOS where
  getMenuItemCount := fun _ => 5
  getMenuItemInfo := fun _ _ => ⟨none, none, none⟩
  getMenuItemRect := fun _ _ _ => (1, (5, 3, 20, 8))

/-- A cached tree with a single top-level leaf File (command id 7, no
children). -/
def fileLeafTree : List (String × SubMenuStructure) :=
  [("File", SubMenuStructure.mk 1 2 (some 7) "" none [])]

/-- A cached tree with a single top-level submenu header File whose stored
command id is 0. -/
def fileZeroIdTree : List (String × SubMenuStructure) :=
  [("File", SubMenuStructure.mk 1 2 (some 0) "" none
    [("New", SubMenuStructure.mk 2 0 (some 9) "" none [])])]

/-- An OS with no menus at all. -/
def emptyOS : MenuOS where
  getMenuItemCount := fun _ => 0
  getMenuItemInfo := fun _ _ => ⟨none, none, none⟩
  getMenuItemRect := fun _ _ _ => (0, (0, 0, 0, 0))

/-- Watcher-loop environment realizing the spec scenario: the flag stays set,
the window exists, and the target (handle 2) sits at position 2 of 3 in the
first enumeration and last in every later one. -/
def scenarioEnv : SendBottomEnv where
  keepAtCheck := fun _ => true
  isWindow := fun _ => true
  handles := fun n =>
    if n = 0 then [(1, 100), (2, 200), (3, 300)]
    else [(1, 100), (3, 300), (2, 200)]
  keepAtWait := fun _ => true

/-- A matching environment whose matcher accepts everything; condition 0 is
the only registered condition and no special constant collides with it. -/
def sampleReEnv : ReEnv where
  MATCH := 1
  NOTMATCH := 2
  EDITDISTANCE := 3
  DIFFRATIO := 4
  IGNORECASE := 5
  condKeys := [0]
  condDic := fun _ _ _ _ => true
  compile := fun s _ => s

/-- Two enumerated windows, one with an empty title. -/
def sampleWindows : List WinRecord :=
  [⟨"Notepad", "notepad"⟩, ⟨"", "ghost"⟩]

/-- Two visible app names, one empty. -/
def sampleAppNames : List String := ["app1", ""]

/-- Key membership after a Python dict assignment: the keys are the old keys
plus the assigned key. -/
theorem dictSet_keys {α : Type} (k : String) (v : α) (a : String)
    (d : List (String × α)) :
    a ∈ (dictSet d k v).map Prod.fst ↔ a ∈ d.map Prod.fst ∨ a = k := by
  induction d with
  | nil => simp [dictSet]
  | cons kv rest ih =>
      obtain ⟨kh, vh⟩ := kv
      by_cases h : kh = k
      · subst h
        simp [dictSet]
        tauto
      · simp [dictSet, h, ih]
        tauto

/-- Binding membership after a Python dict assignment: every binding of the
result is an old binding or the assigned one. -/
theorem dictSet_mem {α : Type} (k : String) (v : α) (q : String × α)
    (d : List (String × α)) :
    q ∈ dictSet d k v → q ∈ d ∨ q = (k, v) := by
  induction d with
  | nil => simp [dictSet]
  | cons kv rest ih =>
      obtain ⟨kh, vh⟩ := kv
      by_cases h : kh = k
      · subst h
        simp [dictSet]
        tauto
      · simp [dictSet, h]
        intro hq
        rcases hq with h1 | h2
        · exact Or.inl (Or.inl h1)
        · rcases ih h2 with h3 | h4
          · exact Or.inl (Or.inr h3)
          · exact Or.inr h4

/-- A successful _getMenuItemInfo means the root menu handle is nonzero and
the info is the OS answer for that position. -/
theorem menuInfoPriv_some {os : MenuOS} {hMenu hSubMenu itemPos : Int}
    {info : MENUITEMINFO}
    (h : menuGetMenuItemInfoPriv os hMenu hSubMenu itemPos = some info) :
    hMenu ≠ 0 ∧ info = os.getMenuItemInfo hSubMenu itemPos := by
  unfold menuGetMenuItemInfoPriv at h
  split at h
  · exact ⟨by assumption, (Option.some.injEq _ _ ▸ h).symm⟩
  · cases h

/-- Reduction of one findit loop body through the extracted insertion
decision: the body either assigns the computed binding or leaves the dict
unchanged. -/
theorem finditBody_eq (os : MenuOS) (hWnd hMenu winLeft winTop : Int)
    (child : Int → Option Rect → List (String × SubMenuStructure))
    (parent : Int) (parentRect : Option Rect)
    (option : List (String × SubMenuStructure)) (i : Nat) :
    finditBody os hWnd hMenu winLeft winTop child parent parentRect option i =
      if finditInserts os hMenu parent i = true then
        dictSet option (finditTitle os parent i)
          (finditNode os hWnd hMenu winLeft winTop child parent parentRect i)
      else option := by
  unfold finditBody finditInserts finditTitle finditNode
  cases hpriv : menuGetMenuItemInfoPriv os hMenu parent (Int.ofNat i) with
  | none => rfl
  | some info =>
      obtain ⟨-, hi⟩ := menuInfoPriv_some hpriv
      subst hi
      by_cases hskip : (os.getMenuItemInfo parent (Int.ofNat i)).text = none ∨
          (os.getMenuItemInfo parent (Int.ofNat i)).text = some "" ∨
          (os.getMenuItemInfo parent (Int.ofNat i)).hSubMenu = none
      · simp only [if_pos hskip]
        simp
      · simp only [if_neg hskip]
        simp

/-- Key membership through one findit loop body: a key is present afterwards
iff it was present before or item i is inserted under that key. -/
theorem finditBody_keys (os : MenuOS) (hWnd hMenu winLeft winTop : Int)
    (child : Int → Option Rect → List (String × SubMenuStructure))
    (parent : Int) (parentRect : Option Rect)
    (option : List (String × SubMenuStructure)) (i : Nat) (a : String) :
    a ∈ (finditBody os hWnd hMenu winLeft winTop child parent parentRect
        option i).map Prod.fst ↔
      a ∈ option.map Prod.fst ∨
      (finditInserts os hMenu parent i = true ∧ finditTitle os parent i = a) := by
  rw [finditBody_eq]
  by_cases hins : finditInserts os hMenu parent i = true
  · rw [if_pos hins, dictSet_keys]
    constructor
    · rintro (h | h)
      · exact Or.inl h
      · exact Or.inr ⟨hins, h.symm⟩
    · rintro (h | ⟨-, h⟩)
      · exact Or.inl h
      · exact Or.inr h.symm
  · rw [if_neg hins]
    simp [hins]

/-- Binding membership through one findit loop body: every binding afterwards
was present before or is the inserted binding of item i. -/
theorem finditBody_mem (os : MenuOS) (hWnd hMenu winLeft winTop : Int)
    (child : Int → Option Rect → List (String × SubMenuStructure))
    (parent : Int) (parentRect : Option Rect)
    (option : List (String × SubMenuStructure)) (i : Nat)
    (q : String × SubMenuStructure) :
    q ∈ finditBody os hWnd hMenu winLeft winTop child parent parentRect
        option i →
      q ∈ option ∨
      (finditInserts os hMenu parent i = true ∧
        q = (finditTitle os parent i,
          finditNode os hWnd hMenu winLeft winTop child parent parentRect i)) := by
  rw [finditBody_eq]
  by_cases hins : finditInserts os hMenu parent i = true
  · rw [if_pos hins]
    intro hq
    rcases dictSet_mem _ _ _ _ hq with h1 | h2
    · exact Or.inl h1
    · exact Or.inr ⟨hins, h2⟩
  · rw [if_neg hins]
    exact fun h => Or.inl h

/-- Key membership through the whole findit loop fold. -/
theorem finditFold_keys (os : MenuOS) (hWnd hMenu winLeft winTop : Int)
    (child : Int → Option Rect → List (String × SubMenuStructure))
    (parent : Int) (parentRect : Option Rect) (l : List Nat) :
    ∀ (acc : List (String × SubMenuStructure)) (a : String),
    a ∈ (l.foldl (finditBody os hWnd hMenu winLeft winTop child parent
        parentRect) acc).map Prod.fst ↔
      a ∈ acc.map Prod.fst ∨
      ∃ i ∈ l, finditInserts os hMenu parent i = true ∧
        finditTitle os parent i = a := by
  induction l with
  | nil =>
      intro acc a
      simp
  | cons j rest ih =>
      intro acc a
      rw [List.foldl_cons, ih, finditBody_keys]
      constructor
      · rintro ((h | h) | ⟨i, hi, h⟩)
        · exact Or.inl h
        · exact Or.inr ⟨j, List.mem_cons_self j rest, h⟩
        · exact Or.inr ⟨i, List.mem_cons_of_mem j hi, h⟩
      · rintro (h | ⟨i, hi, h⟩)
        · exact Or.inl (Or.inl h)
        · rcases List.mem_cons.mp hi with rfl | hmem
          · exact Or.inl (Or.inr h)
          · exact Or.inr ⟨i, hmem, h⟩

/-- Binding membership through the whole findit loop fold. -/
theorem finditFold_mem (os : MenuOS) (hWnd hMenu winLeft winTop : Int)
    (child : Int → Option Rect → List (String × SubMenuStructure))
    (parent : Int) (parentRect : Option Rect) (l : List Nat) :
    ∀ (acc : List (String × SubMenuStructure)) (q : String × SubMenuStructure),
    q ∈ l.foldl (finditBody os hWnd hMenu winLeft winTop child parent
        parentRect) acc →
      q ∈ acc ∨
      ∃ i ∈ l, finditInserts os hMenu parent i = true ∧
        q = (finditTitle os parent i,
          finditNode os hWnd hMenu winLeft winTop child parent parentRect i) := by
  induction l with
  | nil =>
      intro acc q h
      exact Or.inl h
  | cons j rest ih =>
      intro acc q h
      rw [List.foldl_cons] at h
      rcases ih _ q h with h1 | ⟨i, hi, h2⟩
      · rcases finditBody_mem os hWnd hMenu winLeft winTop child parent
            parentRect acc j q h1 with h3 | h4
        · exact Or.inl h3
        · exact Or.inr ⟨j, List.mem_cons_self j rest, h4⟩
      · exact Or.inr ⟨i, List.mem_cons_of_mem j hi, h2⟩

/-- Unpacking of a positive findit insertion decision. -/
theorem finditInserts_true {os : MenuOS} {hMenu parent : Int} {i : Nat}
    (h : finditInserts os hMenu parent i = true) :
    hMenu ≠ 0 ∧
    (os.getMenuItemInfo parent (Int.ofNat i)).text ≠ none ∧
    (os.getMenuItemInfo parent (Int.ofNat i)).text ≠ some "" ∧
    (os.getMenuItemInfo parent (Int.ofNat i)).hSubMenu ≠ none := by
  unfold finditInserts at h
  cases hpriv : menuGetMenuItemInfoPriv os hMenu parent (Int.ofNat i) with
  | none =>
      rw [hpriv] at h
      simp at h
  | some info =>
      rw [hpriv] at h
      obtain ⟨hm, hi⟩ := menuInfoPriv_some hpriv
      subst hi
      simp at h
      exact ⟨hm, h.1, h.2.1, h.2.2⟩

/-- C1 (amended): during the menu walk, the keys present at a level are
exactly the titles of the item indices admitted by the code's guard — info
retrieved, truthy text and a non-None submenu field; in particular a textless
item is skipped even when it carries a valid submenu handle, and an item with
usable text is inserted even when it has no identity at all. -/
theorem C1_menu_insertion_rule (os : MenuOS) (hWnd hMenu winLeft winTop : Int)
    (fuel : Nat) (parent : Int) (parentRect : Option Rect) (key : String) :
    key ∈ (buildEntries os hWnd hMenu winLeft winTop (fuel + 1) parent
        parentRect).map Prod.fst ↔
      ∃ i < (os.getMenuItemCount parent).toNat,
        finditInserts os hMenu parent i = true ∧
        finditTitle os parent i = key := by
  show key ∈ (finditLevel os hWnd hMenu winLeft winTop
      (buildEntries os hWnd hMenu winLeft winTop fuel) parent
      parentRect).map Prod.fst ↔ _
  unfold finditLevel
  rw [finditFold_keys]
  simp

/-- C1 (counterexample): an item whose retrieved info is textless but carries
the valid submenu handle 5 is inserted according to the specification's skip
rule, yet the built tree is empty because the code skips every textless
item. -/
theorem C1_counterexample :
    buildEntries textlessSubmenuOS 99 10 0 0 2 10 none = [] ∧
    specInsertDecision (some ⟨some "", some 5, none⟩) = true ∧
    finditInserts textlessSubmenuOS 10 10 0 = false :=
  ⟨rfl, rfl, rfl⟩

/-- C1 (witness): the amended insertion rule evaluated on the textless-item
OS at a concrete key. -/
theorem C1_witness :
    ("x" ∈ (buildEntries textlessSubmenuOS 99 10 0 0 2 10 none).map
        Prod.fst ↔
      ∃ i < (textlessSubmenuOS.getMenuItemCount 10).toNat,
        finditInserts textlessSubmenuOS 10 10 i = true ∧
        finditTitle textlessSubmenuOS 10 i = "x") :=
  C1_menu_insertion_rule textlessSubmenuOS 99 10 0 0 1 10 none "x"

/-- C5 (amended): every binding of a built level comes from an item the OS
reported with usable text and a present submenu field; the node carries that
item's wID and parent, and its children are exactly the recursive build of
its submenu handle with its rectangle — but nothing forces a non-separator
node to have a truthy command ID or children. -/
theorem C5_node_provenance (os : MenuOS) (hWnd hMenu winLeft winTop : Int)
    (fuel : Nat) (parent : Int) (parentRect : Option Rect) (key : String)
    (node : SubMenuStructure) :
    (key, node) ∈ buildEntries os hWnd hMenu winLeft winTop (fuel + 1) parent
        parentRect →
      ∃ i < (os.getMenuItemCount parent).toNat,
        hMenu ≠ 0 ∧
        optStrTruthy (os.getMenuItemInfo parent (Int.ofNat i)).text = true ∧
        (os.getMenuItemInfo parent (Int.ofNat i)).hSubMenu =
          some node.hSubMenu ∧
        node.wID = (os.getMenuItemInfo parent (Int.ofNat i)).wID ∧
        node.parent = parent ∧
        node.entries = buildEntries os hWnd hMenu winLeft winTop fuel
          node.hSubMenu node.rect ∧
        key = finditTitle os parent i := by
  intro hmem
  have hmem2 : (key, node) ∈
      (List.range (os.getMenuItemCount parent).toNat).foldl
        (finditBody os hWnd hMenu winLeft winTop
          (buildEntries os hWnd hMenu winLeft winTop fuel) parent parentRect)
        [] := hmem
  rcases finditFold_mem os hWnd hMenu winLeft winTop
      (buildEntries os hWnd hMenu winLeft winTop fuel) parent parentRect
      (List.range (os.getMenuItemCount parent).toNat) [] (key, node) hmem2
    with h1 | ⟨i, hi, hins, heq⟩
  · cases h1
  · obtain ⟨hm, htext, htext2, hsub⟩ := finditInserts_true hins
    injection heq with hkey hnode
    subst hnode
    refine ⟨i, List.mem_range.mp hi, hm, ?_, ?_, ?_, ?_, ?_, hkey⟩
    · cases htx : (os.getMenuItemInfo parent (Int.ofNat i)).text with
      | none => exact absurd htx htext
      | some s =>
          have hs : s ≠ "" := by
            intro hs0
            exact htext2 (by rw [htx, hs0])
          simp [optStrTruthy, hs]
    · cases hsm : (os.getMenuItemInfo parent (Int.ofNat i)).hSubMenu with
      | none => exact absurd hsm hsub
      | some v =>
          simp only [finditNode, SubMenuStructure.hSubMenu]
          rw [hsm]
          simp
    · rfl
    · rfl
    · rfl

/-- C5 (counterexample): an item with usable text, submenu field 0 and no
command id produces the non-separator node Foo with neither a truthy command
ID nor children, violating the claimed invariant. -/
theorem C5_counterexample :
    buildEntries plainLeafOS 99 10 0 0 2 10 none =
      [("Foo", SubMenuStructure.mk 10 0 none "" none [])] ∧
    ¬ specNodeInvariant "Foo" (SubMenuStructure.mk 10 0 none "" none []) := by
  constructor
  · rfl
  · intro h
    rcases h with h | h | h
    · exact absurd h (by decide)
    · exact h rfl
    · exact absurd h (by decide)

/-- C5 (witness): the provenance theorem evaluated on the plain-leaf OS at
the node Foo of its built tree. -/
theorem C5_witness :
    ∃ i < (plainLeafOS.getMenuItemCount 10).toNat,
      (10 : Int) ≠ 0 ∧
      optStrTruthy (plainLeafOS.getMenuItemInfo 10 (Int.ofNat i)).text =
        true ∧
      (plainLeafOS.getMenuItemInfo 10 (Int.ofNat i)).hSubMenu =
        some (SubMenuStructure.mk 10 0 none "" none []).hSubMenu ∧
      (SubMenuStructure.mk 10 0 none "" none []).wID =
        (plainLeafOS.getMenuItemInfo 10 (Int.ofNat i)).wID ∧
      (SubMenuStructure.mk 10 0 none "" none []).parent = 10 ∧
      (SubMenuStructure.mk 10 0 none "" none []).entries =
        buildEntries plainLeafOS 99 10 0 0 1
          (SubMenuStructure.mk 10 0 none "" none []).hSubMenu
          (SubMenuStructure.mk 10 0 none "" none []).rect ∧
      "Foo" = finditTitle plainLeafOS 10 i :=
  C5_node_provenance plainLeafOS 99 10 0 0 1 10 none "Foo"
    (SubMenuStructure.mk 10 0 none "" none [])
    (by
      have h : buildEntries plainLeafOS 99 10 0 0 (1 + 1) 10 none =
          [("Foo", SubMenuStructure.mk 10 0 none "" none [])] := rfl
      rw [h]
      exact List.mem_singleton.mpr rfl)

/-- A successful dict lookup only happens on a non-empty dict. -/
theorem dictGet_ne_nil {α : Type} {d : List (String × α)} {k : String} {v : α}
    (h : dictGet d k = some v) : d.isEmpty = false := by
  cases d
  · simp [dictGet] at h
  · rfl

/-- A path with every segment present is exactly a path whose last segment is
found after walking the prefix through the cached tree. -/
theorem pathAllPresent_iff_resolve :
    ∀ (p : List String), p ≠ [] →
    ∀ menu : List (String × SubMenuStructure),
    pathAllPresent menu p = true ↔
      (dictGet (walkPrefix menu p.dropLast) (p.getLastD "")).isSome = true := by
  intro p
  induction p with
  | nil => intro h; exact absurd rfl h
  | cons x rest ih =>
      intro _ menu
      cases rest with
      | nil =>
          cases hg : dictGet menu x with
          | none => simp [pathAllPresent, walkPrefix, hg]
          | some node => simp [pathAllPresent, walkPrefix, hg]
      | cons y rest2 =>
          cases hg : dictGet menu x with
          | none =>
              simp [pathAllPresent, walkPrefix, hg, dictGet]
          | some node =>
              have hdl : (x :: y :: rest2).dropLast =
                  x :: (y :: rest2).dropLast := rfl
              have hld : (x :: y :: rest2).getLastD "" =
                  (y :: rest2).getLastD "" := by
                rfl
              rw [hld, hdl]
              have hw : walkPrefix menu (x :: (y :: rest2).dropLast) =
                  walkPrefix node.entries ((y :: rest2).dropLast) := by
                simp [walkPrefix, hg]
              rw [hw]
              have hpp : pathAllPresent menu (x :: y :: rest2) =
                  pathAllPresent node.entries (y :: rest2) := by
                simp [pathAllPresent, hg]
              rw [hpp]
              exact ih (by simp) node.entries

/-- Reduction of clickMenuItem when called with a non-empty path and a falsy
explicit id: the outcome is decided by the lookup of the last segment after
walking the prefix through the effective tree. -/
theorem clickMenuItem_path_eq (os : MenuOS) (hWnd hMenu winLeft winTop : Int)
    (fuel : Nat) (menuStructure : List (String × SubMenuStructure))
    (p : List String) (wid : Option Int)
    (hm : hMenu ≠ 0) (hp : p.isEmpty = false)
    (hw : optIntTruthy wid = false) :
    clickMenuItem os hWnd hMenu winLeft winTop fuel menuStructure (some p)
        wid =
      match dictGet (walkPrefix (effectiveMenu os hWnd hMenu winLeft winTop
          fuel menuStructure) p.dropLast) (p.getLastD "") with
      | some node =>
          if optIntTruthy node.wID = true then
            (true, some (hWnd, node.wID.getD 0))
          else (false, none)
      | none => (false, none) := by
  unfold clickMenuItem
  rw [if_pos hm, hw]
  simp only [List.getLastD_eq_getLast?]
  cases hg : dictGet (walkPrefix (effectiveMenu os hWnd hMenu winLeft winTop
      fuel menuStructure) p.dropLast) (p.getLast?.getD "") with
  | none =>
      cases hempty : (walkPrefix (effectiveMenu os hWnd hMenu winLeft winTop
          fuel menuStructure) p.dropLast).isEmpty
      · simp [hp, hempty, hg, optIntTruthy]
      · simp [hp, hempty, optIntTruthy]
  | some node =>
      have hne := dictGet_ne_nil hg
      simp [hp, hne, hg, optIntTruthy]

/-- C2: for a path passed to clickMenuItem with no explicit id, a missing
segment yields false with no message posted (and the embedding is a total
function, so no exception is possible); conversely a posted message implies
every segment of the path resolved in the effective tree. -/
theorem C2_click_path_resolution (os : MenuOS)
    (hWnd hMenu winLeft winTop : Int) (fuel : Nat)
    (menuStructure : List (String × SubMenuStructure)) (p : List String) :
    (pathAllPresent (effectiveMenu os hWnd hMenu winLeft winTop fuel
        menuStructure) p = false →
      clickMenuItem os hWnd hMenu winLeft winTop fuel menuStructure (some p)
        (some 0) = (false, none)) ∧
    ((clickMenuItem os hWnd hMenu winLeft winTop fuel menuStructure (some p)
        (some 0)).2 ≠ none →
      pathAllPresent (effectiveMenu os hWnd hMenu winLeft winTop fuel
        menuStructure) p = true) := by
  by_cases hm : hMenu = 0
  · constructor
    · intro _
      simp [clickMenuItem, hm]
    · intro habs
      exact absurd (by simp [clickMenuItem, hm]) habs
  · cases hp : p.isEmpty
    · have hpn : p ≠ [] := by
        cases p
        · simp at hp
        · simp
      rw [clickMenuItem_path_eq os hWnd hMenu winLeft winTop fuel
        menuStructure p (some 0) hm hp rfl]
      cases hg : dictGet (walkPrefix (effectiveMenu os hWnd hMenu winLeft
          winTop fuel menuStructure) p.dropLast) (p.getLastD "") with
      | none =>
          constructor
          · intro _
            rfl
          · intro habs
            exact absurd rfl habs
      | some node =>
          have hall : pathAllPresent (effectiveMenu os hWnd hMenu winLeft
              winTop fuel menuStructure) p = true := by
            rw [pathAllPresent_iff_resolve p hpn]
            rw [hg]
            rfl
          constructor
          · intro hfalse
            rw [hall] at hfalse
            cases hfalse
          · intro _
            exact hall
    · have hpe : p = [] := by
        cases p
        · rfl
        · simp at hp
      subst hpe
      constructor
      · intro _
        simp [clickMenuItem, hm, optIntTruthy]
      · intro habs
        exact absurd (by simp [clickMenuItem, hm, optIntTruthy]) habs

/-- C2 (witness): looking up the path File, Save in a tree where File exists
but has no children returns false and posts nothing. -/
theorem C2_witness :
    clickMenuItem emptyOS 99 1 0 0 1 fileLeafTree (some ["File", "Save"])
      (some 0) = (false, none) :=
  (C2_click_path_resolution emptyOS 99 1 0 0 1 fileLeafTree
    ["File", "Save"]).1 rfl

/-- C10: an explicit wID of 0 is falsy, so clickMenuItem behaves exactly as
with no id at all and falls through to path lookup; and when the path fully
resolves to an entry whose stored command id is 0 or missing, the result is
false with no message posted. -/
theorem C10_zero_id_no_dispatch (os : MenuOS)
    (hWnd hMenu winLeft winTop : Int) (fuel : Nat)
    (menuStructure : List (String × SubMenuStructure)) (p : List String)
    (node : SubMenuStructure) :
    (clickMenuItem os hWnd hMenu winLeft winTop fuel menuStructure (some p)
        (some 0) =
      clickMenuItem os hWnd hMenu winLeft winTop fuel menuStructure (some p)
        none) ∧
    (dictGet (walkPrefix (effectiveMenu os hWnd hMenu winLeft winTop fuel
        menuStructure) p.dropLast) (p.getLastD "") = some node →
      node.wID = none ∨ node.wID = some 0 →
      clickMenuItem os hWnd hMenu winLeft winTop fuel menuStructure (some p)
        (some 0) = (false, none)) := by
  constructor
  · rfl
  · intro hres hwid
    by_cases hm : hMenu = 0
    · simp [clickMenuItem, hm]
    · cases hp : p.isEmpty
      · rw [clickMenuItem_path_eq os hWnd hMenu winLeft winTop fuel
          menuStructure p (some 0) hm hp rfl]
        rw [hres]
        have hfalse : optIntTruthy node.wID = false := by
          rcases hwid with h | h <;> rw [h] <;> rfl
        simp [hfalse]
      · have hpe : p = [] := by
          cases p
          · rfl
          · simp at hp
        subst hpe
        simp [clickMenuItem, hm, optIntTruthy]

/-- C10 (witness): a fully resolved one-segment path naming a submenu header
whose stored id is 0 yields false and no dispatch. -/
theorem C10_witness :
    clickMenuItem emptyOS 99 1 0 0 1 fileZeroIdTree (some ["File"])
      (some 0) = (false, none) :=
  (C10_zero_id_no_dispatch emptyOS 99 1 0 0 1 fileZeroIdTree ["File"]
    (SubMenuStructure.mk 1 2 (some 0) "" none
      [("New", SubMenuStructure.mk 2 0 (some 9) "" none [])])).2 rfl
    (Or.inr rfl)

/-- Evaluation of getMenuItemRect once the cached positional index is known:
the cached tree is non-empty so no lazy rebuild happens. -/
theorem menuGetMenuItemRect_eq (os : MenuOS) (hWnd hMenu winLeft winTop : Int)
    (fuel : Nat) (menuStructure : List (String × SubMenuStructure))
    (hSubMenu wID pos : Int)
    (hne : menuStructure.isEmpty = false)
    (hpos : rectFindit menuStructure hSubMenu wID = pos) :
    menuGetMenuItemRect os hWnd hMenu winLeft winTop fuel menuStructure
        hSubMenu wID =
      if hMenu ≠ 0 ∧ 0 ≤ pos ∧ pos < menuGetMenuItemCount os hMenu hSubMenu
      then
        match os.getMenuItemRect hWnd hSubMenu pos with
        | (result, (x, y, r, b)) =>
          if result ≠ 0 then ⟨x, y, r, b⟩ else ⟨0, 0, 0, 0⟩
      else ⟨0, 0, 0, 0⟩ := by
  unfold menuGetMenuItemRect
  simp [hne, hpos]

/-- C3 (code evaluation at the failing input): the cached submenu 10 is found
and none of its children carries id 99, yet findit falls through to the last
child's position 1 and getMenuItemRect returns that item's live rectangle
(7, 8, 9, 10) instead of the zero rectangle. -/
theorem C3_code_bug_eval :
    menuGetMenuItemRect lastItemRectOS 99 1 0 0 2 cachedTreeC3 10 99 =
      ⟨7, 8, 9, 10⟩ ∧
    ((findMenuLoop cachedTreeC3 10 []).all
      (fun kv => !(kv.2.wID == some 99))) = true ∧
    (⟨7, 8, 9, 10⟩ : Rect) ≠ ⟨0, 0, 0, 0⟩ := by
  have hfm : findMenuLoop cachedTreeC3 10 [] =
      [("x", SubMenuStructure.mk 10 0 (some 1) "" none []),
       ("y", SubMenuStructure.mk 10 0 (some 2) "" none [])] := by
    simp [cachedTreeC3, findMenuLoop]
  have h1 : rectFindit cachedTreeC3 10 99 = 1 := by
    unfold rectFindit
    rw [hfm]
    rfl
  refine ⟨?_, ?_, by decide⟩
  · rw [menuGetMenuItemRect_eq lastItemRectOS 99 1 0 0 2 cachedTreeC3 10 99 1
      rfl h1]
    rfl
  · rw [hfm]
    rfl

/-- Relative coordinates agree with plain subtraction when the window corner
coordinate is nonnegative and the item coordinate does not precede it. -/
theorem pyRelCoord_eq_sub {c w : Int} (hw : 0 ≤ w) (hc : w ≤ c) :
    pyRelCoord c w = c - w := by
  unfold pyRelCoord
  rw [abs_of_nonneg (hw.trans hc), abs_of_nonneg hw,
    abs_of_nonneg (sub_nonneg.mpr hc)]

/-- C4 (counterexample): with the window at left 10 and an item whose
absolute left is 5, the stored left is abs(abs(5) - abs(10)) = 5, not the
subtraction -5 the claim requires. -/
theorem C4_counterexample :
    menuGetMenuItemRectPriv negRectOS 99 1 10 0 7 0 none true =
      some ⟨5, 3, 10, 8⟩ ∧
    specRelativeRect 5 3 20 8 10 0 none = ⟨-5, 3, 10, 8⟩ ∧
    menuGetMenuItemRectPriv negRectOS 99 1 10 0 7 0 none true ≠
      some (specRelativeRect 5 3 20 8 10 0 none) := by
  refine ⟨by decide, by decide, by decide⟩

/-- C4 (amended): when the window's top-left is nonnegative and the item's
absolute rectangle lies at or beyond it in both axes, the abs-of-difference
formula coincides with plain subtraction, so the stored rectangle is the
item's absolute rectangle with the window's top-left subtracted from each
coordinate, with a supplied parent rectangle overriding the left
coordinate. -/
theorem C4_relative_rect (os : MenuOS) (hWnd hMenu winLeft winTop : Int)
    (hSubMenu itemPos : Int) (parentRect : Option Rect)
    (hguard : hMenu ≠ 0 ∧ hSubMenu ≠ 0 ∧ 0 ≤ itemPos ∧
      itemPos < menuGetMenuItemCount os hMenu hSubMenu)
    (x y r b result : Int)
    (hq : os.getMenuItemRect hWnd hSubMenu itemPos = (result, (x, y, r, b)))
    (hres : result ≠ 0)
    (hL : 0 ≤ winLeft) (hT : 0 ≤ winTop) (hx : winLeft ≤ x) (hy : winTop ≤ y)
    (hr : winLeft ≤ r) (hb : winTop ≤ b) :
    menuGetMenuItemRectPriv os hWnd hMenu winLeft winTop hSubMenu itemPos
        parentRect true =
      some (specRelativeRect x y r b winLeft winTop parentRect) := by
  unfold menuGetMenuItemRectPriv
  rw [if_pos hguard, hq]
  cases parentRect with
  | none =>
      simp [hres, specRelativeRect, pyRelCoord_eq_sub hL hx,
        pyRelCoord_eq_sub hT hy, pyRelCoord_eq_sub hL hr,
        pyRelCoord_eq_sub hT hb]
  | some pr =>
      simp [hres, specRelativeRect, pyRelCoord_eq_sub hT hy,
        pyRelCoord_eq_sub hL hr, pyRelCoord_eq_sub hT hb]

/-- C4 (witness): the amended statement evaluated with the window at (2, 1)
and the item rectangle (5, 3, 20, 8). -/
theorem C4_witness :
    menuGetMenuItemRectPriv negRectOS 99 1 2 1 7 0 none true =
      some (specRelativeRect 5 3 20 8 2 1 none) :=
  C4_relative_rect negRectOS 99 1 2 1 7 0 none (by decide) 5 3 20 8 1 rfl
    (by decide) (by decide) (by decide) (by decide) (by decide) (by decide)
    (by decide)

/-- C6 (counterexample): disabling always-on-bottom with no watcher object
still performs the sendBehind(False) actions on the window, and a second
enable while the watcher is running re-enters the polling loop. -/
theorem C6_counterexample :
    (alwaysOnBottom false none 0).1 ≠ [] ∧
    WinAction.runLoop ∈ (alwaysOnBottom true (some true) 0).1 := by
  decide

/-- C6 (amended): a second alwaysOnBottom(True) while the watcher exists does
not start a second thread, but restart() sets the flag and re-enters run()
synchronously on the caller's thread — a second concurrent polling loop; and
alwaysOnBottom(False) with no watcher skips the kill but still calls
sendBehind(False), reparenting, messaging and redrawing the window. -/
theorem C6_watcher_behavior (ret : Int) (flag : Bool) :
    (alwaysOnBottom true (some flag) ret).1 =
      [WinAction.setWindowPosBottom, WinAction.eventSet, WinAction.runLoop] ∧
    WinAction.threadStart ∉ (alwaysOnBottom true (some flag) ret).1 ∧
    (alwaysOnBottom true (some flag) ret).2.1 = some true ∧
    (alwaysOnBottom false none ret).1 =
      [WinAction.setParent, WinAction.defWindowProc,
        WinAction.redrawWindow] ∧
    WinAction.eventClear ∉ (alwaysOnBottom false none ret).1 := by
  refine ⟨rfl, ?_, rfl, rfl, ?_⟩
  · rw [show (alwaysOnBottom true (some flag) ret).1 =
      [WinAction.setWindowPosBottom, WinAction.eventSet, WinAction.runLoop]
      from rfl]
    decide
  · rw [show (alwaysOnBottom false none ret).1 =
      [WinAction.setParent, WinAction.defWindowProc, WinAction.redrawWindow]
      from rfl]
    decide

/-- C6 (witness): the amended watcher behaviour at a concrete SetParent
result. -/
theorem C6_witness :
    (alwaysOnBottom true (some true) 3).1 =
      [WinAction.setWindowPosBottom, WinAction.eventSet, WinAction.runLoop] ∧
    WinAction.threadStart ∉ (alwaysOnBottom true (some true) 3).1 ∧
    (alwaysOnBottom true (some true) 3).2.1 = some true ∧
    (alwaysOnBottom false none 3).1 =
      [WinAction.setParent, WinAction.defWindowProc,
        WinAction.redrawWindow] ∧
    WinAction.eventClear ∉ (alwaysOnBottom false none 3).1 :=
  C6_watcher_behavior 3 true

/-- C7 (code evaluation at the failing input): with the live flag set, the
window present and the target at position 2 of 3, the first iteration issues
exactly one bottom command and the second (target now last) issues none, but
the Event.wait elapses 0 in both — the loop never waits the configured
interval while the flag is set, because Event.wait returns immediately on a
set event. -/
theorem C7_code_bug_eval :
    sendBottomRun 2 sendBottomDefaultInterval scenarioEnv 2 0 =
      [([BottomCmd.setWindowPosBottom], 0), ([], 0)] ∧
    sendBottomDefaultInterval ≠ 0 := by
  constructor
  · rfl
  · norm_num [sendBottomDefaultInterval]

/-- C8: an empty pattern yields the empty result set for both the title and
the app-name search, and no window with an empty title (or empty app name)
ever appears in a result, for every matching environment, condition and
flags. -/
theorem C8_empty_title_never_matches (env : ReEnv) (windows : List WinRecord)
    (appNames : List String) (title name : String) (app : List String)
    (condition flags : Int) (w : WinRecord) (a : String) :
    getWindowsWithTitle env windows "" app condition flags = [] ∧
    getAppsWithName env appNames "" condition flags = [] ∧
    (w ∈ getWindowsWithTitle env windows title app condition flags →
      w.title ≠ "") ∧
    (a ∈ getAppsWithName env appNames name condition flags → a ≠ "") := by
  refine ⟨?_, ?_, ?_, ?_⟩
  · simp [getWindowsWithTitle]
  · simp [getAppsWithName]
  · intro hw
    unfold getWindowsWithTitle at hw
    split at hw
    · rcases hpre : matchPreprocess env title condition flags with
        ⟨pat, fl2, lo⟩
      rw [hpre] at hw
      have hmem := List.mem_filter.mp hw
      have hbool := hmem.2
      simp only [Bool.and_eq_true, Bool.not_eq_true', beq_eq_false_iff_ne,
        ne_eq] at hbool
      exact hbool.1.1
    · simp at hw
  · intro ha
    unfold getAppsWithName at ha
    split at ha
    · rcases hpre : matchPreprocess env name condition flags with
        ⟨pat, fl2, lo⟩
      rw [hpre] at ha
      have hmem := List.mem_filter.mp ha
      have hbool := hmem.2
      simp only [Bool.and_eq_true, Bool.not_eq_true', beq_eq_false_iff_ne,
        ne_eq] at hbool
      exact hbool.1
    · simp at ha

/-- C8 (witness): the empty-title exclusions evaluated on a concrete window
list and app-name list. -/
theorem C8_witness :
    (WinRecord.mk "Notepad" "notepad").title ≠ "" ∧ ("app1" : String) ≠ "" :=
  ⟨(C8_empty_title_never_matches sampleReEnv sampleWindows sampleAppNames "x"
      "y" [] 0 0 ⟨"Notepad", "notepad"⟩ "app1").2.2.1 (by decide),
   (C8_empty_title_never_matches sampleReEnv sampleWindows sampleAppNames "x"
      "y" [] 0 0 ⟨"Notepad", "notepad"⟩ "app1").2.2.2 (by decide)⟩

/-- C9: sibling items whose labels coincide after ampersand removal collapse
to one entry keyed by the stripped label, the later item silently overwriting
the earlier one. -/
theorem C9_key_collapse (l1 l2 : String) (w1 w2 : Option Int)
    (hParent hWnd winLeft winTop : Int)
    (hp : hParent ≠ 0) (h1 : l1 ≠ "") (h2 : l2 ≠ "")
    (ht : stripTitle l1 = stripTitle l2) :
    getMenu (twoItemOS l1 l2 w1 w2 hParent) hWnd hParent winLeft winTop 2 =
      [(stripTitle l2,
        SubMenuStructure.mk hParent 0 w2 (menuShortcut l2) none [])] := by
  have hinfo0 : (twoItemOS l1 l2 w1 w2 hParent).getMenuItemInfo hParent
      (Int.ofNat 0) = ⟨some l1, some 0, w1⟩ := by
    simp [twoItemOS]
  have hinfo1 : (twoItemOS l1 l2 w1 w2 hParent).getMenuItemInfo hParent
      (Int.ofNat 1) = ⟨some l2, some 0, w2⟩ := by
    simp [twoItemOS]
  have hpriv0 : menuGetMenuItemInfoPriv (twoItemOS l1 l2 w1 w2 hParent)
      hParent hParent (Int.ofNat 0) = some ⟨some l1, some 0, w1⟩ := by
    unfold menuGetMenuItemInfoPriv
    rw [if_pos hp, hinfo0]
  have hpriv1 : menuGetMenuItemInfoPriv (twoItemOS l1 l2 w1 w2 hParent)
      hParent hParent (Int.ofNat 1) = some ⟨some l2, some 0, w2⟩ := by
    unfold menuGetMenuItemInfoPriv
    rw [if_pos hp, hinfo1]
  have hins0 : finditInserts (twoItemOS l1 l2 w1 w2 hParent) hParent
      hParent 0 = true := by
    unfold finditInserts
    rw [hpriv0]
    simp [h1]
  have hins1 : finditInserts (twoItemOS l1 l2 w1 w2 hParent) hParent
      hParent 1 = true := by
    unfold finditInserts
    rw [hpriv1]
    simp [h2]
  have htitle0 : finditTitle (twoItemOS l1 l2 w1 w2 hParent) hParent 0 =
      stripTitle l1 := by
    unfold finditTitle
    rw [hinfo0]
    rfl
  have htitle1 : finditTitle (twoItemOS l1 l2 w1 w2 hParent) hParent 1 =
      stripTitle l2 := by
    unfold finditTitle
    rw [hinfo1]
    rfl
  have hrect0 : menuGetMenuItemRectPriv (twoItemOS l1 l2 w1 w2 hParent) hWnd
      hParent winLeft winTop hParent 0 none true = none := by
    simp [menuGetMenuItemRectPriv, menuGetMenuItemCount, twoItemOS, hp]
  have hrect1 : menuGetMenuItemRectPriv (twoItemOS l1 l2 w1 w2 hParent) hWnd
      hParent winLeft winTop hParent 1 none true = none := by
    simp [menuGetMenuItemRectPriv, menuGetMenuItemCount, twoItemOS, hp]
  have hchild : buildEntries (twoItemOS l1 l2 w1 w2 hParent) hWnd hParent
      winLeft winTop 1 0 none = [] := by
    show finditLevel (twoItemOS l1 l2 w1 w2 hParent) hWnd hParent winLeft
      winTop (buildEntries (twoItemOS l1 l2 w1 w2 hParent) hWnd hParent
        winLeft winTop 0) 0 none = []
    unfold finditLevel
    have hc : ((twoItemOS l1 l2 w1 w2 hParent).getMenuItemCount 0).toNat =
        0 := by
      simp [twoItemOS, Ne.symm hp]
    rw [hc]
    rfl
  have hnode0 : finditNode (twoItemOS l1 l2 w1 w2 hParent) hWnd hParent
      winLeft winTop (buildEntries (twoItemOS l1 l2 w1 w2 hParent) hWnd
        hParent winLeft winTop 1) hParent none 0 =
      SubMenuStructure.mk hParent 0 w1 (menuShortcut l1) none [] := by
    unfold finditNode
    rw [hinfo0]
    simp [hrect0, hchild]
  have hnode1 : finditNode (twoItemOS l1 l2 w1 w2 hParent) hWnd hParent
      winLeft winTop (buildEntries (twoItemOS l1 l2 w1 w2 hParent) hWnd
        hParent winLeft winTop 1) hParent none 1 =
      SubMenuStructure.mk hParent 0 w2 (menuShortcut l2) none [] := by
    unfold finditNode
    rw [hinfo1]
    simp [hrect1, hchild]
  unfold getMenu
  rw [if_pos hp]
  show finditLevel (twoItemOS l1 l2 w1 w2 hParent) hWnd hParent winLeft
    winTop (buildEntries (twoItemOS l1 l2 w1 w2 hParent) hWnd hParent winLeft
      winTop 1) hParent none = _
  unfold finditLevel
  have hcount : ((twoItemOS l1 l2 w1 w2 hParent).getMenuItemCount
      hParent).toNat = 2 := by
    simp [twoItemOS]
  rw [hcount]
  rw [show List.range 2 = [0, 1] from rfl]
  rw [List.foldl_cons, List.foldl_cons, List.foldl_nil]
  simp only [finditBody_eq, if_pos hins0, if_pos hins1, htitle0, htitle1,
    hnode0, hnode1]
  rw [ht]
  simp [dictSet]

/-- C9 (witness): two sibling items labelled with and without an ampersand
collapse to one entry carrying the second item's id. -/
theorem C9_witness :
    getMenu (twoItemOS "A&b" "Ab" (some 1) (some 2) 7) 99 7 0 0 2 =
      [(stripTitle "Ab",
        SubMenuStructure.mk 7 0 (some 2) (menuShortcut "Ab") none [])] :=
  C9_key_collapse "A&b" "Ab" (some 1) (some 2) 7 99 0 0 (by decide)
    (by decide) (by decide) (by decide)

end PyWinCtl

